import Mathlib

/-!
Shallow embedding of meshcat.py (a stdin/stdout to meshtastic-mesh bridge)
and verification of its specification claims.

Modelling conventions:
  * A received packet is the dictionary delivered by the pub/sub mechanism;
    only the keys the program reads are modelled, each as an optional field
    (a `none` field is an absent key).
  * Output is modelled as the list of write calls the callback performs, in
    order.  Standard-output `print` calls and diagnostic-stream
    `sys.stderr.write` calls are separate constructors.  Flushes are not
    modelled separately: every modelled write is immediately visible.
  * Python exceptions are modelled with `Except`: the value raised by the
    body of the `try:` block in `onReceive` is an explicit `PyErr`.
  * Machine integers are `Nat`/`Int`; the fixed-point position fields are
    `Int` and the exact division by 10^7 is carried out in `ℚ`; the
    rendering of a Python float by `str()` is abstracted by keeping the
    exact quotient in the output event.
  * The external library function `convert_mac_addr` and the textual
    rendering `str(packet)` used by the unknown-port fallback are external
    to this repository; `convert_mac_addr` is a parameter `conv` of the
    model and the fallback dump carries the packet itself.
-/

namespace Meshcat

/-- The `user` sub-dictionary of a decoded NODEINFO packet (only the keys
read by meshcat.py lines 67-71). -/
structure UserInfo where
  longName : Option String
  shortName : Option String
  macaddr : Option String
  hwModel : Option String
deriving DecidableEq

/-- The `position` sub-dictionary of a decoded POSITION packet (meshcat.py
lines 76-81).  The raw fields are fixed-point integers scaled by 10^7. -/
structure PositionInfo where
  latitudeI : Option Int
  longitudeI : Option Int
deriving DecidableEq

/-- The `decoded` sub-dictionary of a packet (meshcat.py lines 64-96). -/
structure DecodedInfo where
  portnum : Option String
  user : Option UserInfo
  position : Option PositionInfo
  payload : Option (List Nat)
deriving DecidableEq

/-- A received packet: the keys of the packet dictionary that meshcat.py
reads.  `id` is the packet identifier (line 61), `from_num` is the `from`
key holding the sender node number (line 62). -/
structure Packet where
  id : Option Nat
  from_num : Option Nat
  decoded : Option DecodedInfo
deriving DecidableEq

/-- The empty dictionary default used by `packet['decoded'].get('user', {})`
on line 67. -/
def emptyUser : UserInfo := ⟨none, none, none, none⟩

deriving instance DecidableEq for Except

/-- A Python exception raised inside the `try:` block of `onReceive`:
either a `KeyError` carrying the missing key, or the `UnicodeDecodeError`
raised by `bytes.decode` on invalid UTF-8. -/
inductive PyErr where
  | keyError (key : String)
  | unicodeDecodeError
deriving DecidableEq

/-- One output action of the receive callback.
  * `out s` is `print(s)`: the line `s` followed by a newline on standard
    output, flushed.
  * `outDump p` is the unknown-port fallback `print("Decoded packet: " +
    str(p))` on standard output; the textual rendering `str(p)` is
    abstracted by carrying the packet.
  * `err s` is `sys.stderr.write(s)` on the diagnostic stream.
  * `errPosition node_id lat lon` is the diagnostic write of line 82:
    `__position: <node_id>: <lat>, <lon>`, where a `none` coordinate is
    rendered as the text `N/A` and `some q` is rendered as the decimal
    value of the exact rational `q` (the float produced by line 78/81). -/
inductive OutEvent where
  | out (s : String)
  | outDump (p : Packet)
  | err (s : String)
  | errPosition (node_id : String) (lat lon : Option ℚ)
deriving DecidableEq

/-- The global development flag (meshcat.py line 46). -/
def Devel : Bool := true

/-- The `Debug` helper (meshcat.py lines 50-54): writes the note plus a
newline to the diagnostic stream when `Devel` is set. -/
def Debug (DebugStr : String) : List OutEvent :=
  if Devel then [OutEvent.err (DebugStr ++ "\n")] else []

/-- An ASCII single-quote character, used for the textual form of a Python
`KeyError`. -/
def squote : String := String.singleton (Char.ofNat 39)

/-- The text of `KeyError(k)` as interpolated by the f-string on line 103:
Python renders a `KeyError` as the repr of the missing key. -/
def keyErrorRepr (k : String) : String := squote ++ k ++ squote

/-- Python truthiness of the optional `remote_num` value: `None` and `0`
are falsy, any other integer is truthy (used by line 63). -/
def truthy : Option Nat → Bool
  | none => false
  | some n => n != 0

/-- The sender filter condition of meshcat.py line 63:
`(remote_num and from_num == remote_num) or not remote_num`. -/
def passesFilter (remote_num : Option Nat) (from_num : Nat) : Bool :=
  (truthy remote_num && (some from_num == remote_num)) || !truthy remote_num

/-- The `str(node_id)` used on line 82, where
`node_id = packet.get('id', 'N/A')` (line 61). -/
def nodeIdStr (packet : Packet) : String :=
  match packet.id with
  | some n => toString n
  | none => "N/A"

/-- Whether a byte is a UTF-8 continuation byte (10xxxxxx). -/
def isContByte (b : Nat) : Bool := 0x80 ≤ b && b ≤ 0xBF

/-- A strict UTF-8 decoder over byte lists, modelling Python
`bytes.decode("utf-8")`: rejects overlong encodings, surrogate code
points and out-of-range lead bytes, exactly as CPython strict mode does. -/
def utf8DecodeBytes : List Nat → Option (List Char)
  | [] => some []
  | b0 :: bs =>
    if b0 ≤ 0x7F then
      (utf8DecodeBytes bs).map (fun cs => Char.ofNat b0 :: cs)
    else if 0xC2 ≤ b0 && b0 ≤ 0xDF then
      match bs with
      | b1 :: bs2 =>
        if isContByte b1 then
          (utf8DecodeBytes bs2).map
            (fun cs => Char.ofNat ((b0 - 0xC0) * 0x40 + (b1 - 0x80)) :: cs)
        else none
      | [] => none
    else if 0xE0 ≤ b0 && b0 ≤ 0xEF then
      match bs with
      | b1 :: b2 :: bs2 =>
        if ((b0 == 0xE0 && 0xA0 ≤ b1 && b1 ≤ 0xBF) ||
            (b0 == 0xED && 0x80 ≤ b1 && b1 ≤ 0x9F) ||
            (b0 != 0xE0 && b0 != 0xED && isContByte b1)) && isContByte b2 then
          (utf8DecodeBytes bs2).map
            (fun cs => Char.ofNat
              ((b0 - 0xE0) * 0x1000 + (b1 - 0x80) * 0x40 + (b2 - 0x80)) :: cs)
        else none
      | _ => none
    else if 0xF0 ≤ b0 && b0 ≤ 0xF4 then
      match bs with
      | b1 :: b2 :: b3 :: bs2 =>
        if ((b0 == 0xF0 && 0x90 ≤ b1 && b1 ≤ 0xBF) ||
            (b0 == 0xF4 && 0x80 ≤ b1 && b1 ≤ 0x8F) ||
            (b0 != 0xF0 && b0 != 0xF4 && isContByte b1)) &&
           isContByte b2 && isContByte b3 then
          (utf8DecodeBytes bs2).map
            (fun cs => Char.ofNat
              ((b0 - 0xF0) * 0x40000 + (b1 - 0x80) * 0x1000 +
               (b2 - 0x80) * 0x40 + (b3 - 0x80)) :: cs)
        else none
      | _ => none
    else none

/-- The `message_bytes.decode('utf-8')` call of line 90: `none` models a
raised `UnicodeDecodeError`. -/
def decodeUtf8 (bs : List Nat) : Option String :=
  (utf8DecodeBytes bs).map String.mk

/-- The body of the `try:` block of `onReceive` (meshcat.py lines 61-101),
with the exceptions it can raise made explicit.  `conv` is the external
library function `convert_mac_addr`. -/
def onReceiveBody (conv : String → String) (remote_num : Option Nat)
    (packet : Packet) : Except PyErr (List OutEvent) :=
  if passesFilter remote_num (packet.from_num.getD 0) then
    match packet.decoded with
    | some d =>
      if d.portnum.getD "N/A" = "NODEINFO_APP" then
        Except.ok [OutEvent.err ("__nodeinfo: " ++
          (d.user.getD emptyUser).longName.getD "N/A" ++ "/" ++
          (d.user.getD emptyUser).shortName.getD "N/A" ++ "/" ++
          conv ((d.user.getD emptyUser).macaddr.getD "/") ++ "/" ++
          (d.user.getD emptyUser).hwModel.getD "N/A")]
      else if d.portnum.getD "N/A" = "POSITION_APP" then
        match d.position with
        | some pos =>
          Except.ok [OutEvent.errPosition (nodeIdStr packet)
            (pos.latitudeI.map (fun v : Int => (v : ℚ) / 10000000))
            (pos.longitudeI.map (fun v : Int => (v : ℚ) / 10000000))]
        | none => Except.ok []
      else if d.portnum.getD "N/A" = "ROUTING_APP" then
        Except.ok []
      else if d.portnum.getD "N/A" = "TELEMETRY_APP" then
        Except.ok []
      else if d.portnum.getD "N/A" = "TEXT_MESSAGE_APP" then
        match d.payload with
        | none => Except.error (PyErr.keyError "payload")
        | some bs =>
          match decodeUtf8 bs with
          | none => Except.error PyErr.unicodeDecodeError
          | some msg => Except.ok [OutEvent.out msg]
      else
        Except.ok [OutEvent.out "", OutEvent.outDump packet, OutEvent.out ""]
    | none => Except.ok []
  else
    Except.ok []

/-- The receive callback `onReceive` (meshcat.py lines 57-103): it runs the
body and catches exactly `KeyError`, logging it through `Debug`; every
other exception propagates to the caller. -/
def onReceive (conv : String → String) (remote_num : Option Nat)
    (packet : Packet) : Except PyErr (List OutEvent) :=
  match onReceiveBody conv remote_num packet with
  | Except.error (PyErr.keyError k) =>
    Except.ok (Debug ("Error processing packet: " ++ keyErrorRepr k))
  | r => r

/-- The broadcast sentinel `BROADCAST_NUM` imported from the meshtastic
library (its value there is the all-ones 32-bit node number). -/
def BROADCAST_NUM : Nat := 0xffffffff

/-- One call to the device interface made by the send path. -/
inductive SendEvent where
  | sendData (payload : List Nat) (destinationId : Nat)
  | sendText (message : String) (destinationId : Nat)
deriving DecidableEq

/-- The `send_data` function (meshcat.py lines 106-112): the interface call
it performs. -/
def send_data (raw_data : List Nat) (remid : Option Nat) : SendEvent :=
  match remid with
  | some r => SendEvent.sendData raw_data r
  | none => SendEvent.sendData raw_data BROADCAST_NUM

/-- The `send_message` function (meshcat.py lines 115-121): the interface
call it performs. -/
def send_message (message : String) (remid : Option Nat) : SendEvent :=
  match remid with
  | some r => SendEvent.sendText message r
  | none => SendEvent.sendText message BROADCAST_NUM

/-- The destination every send targets: the configured node when one is
set, otherwise the broadcast sentinel. -/
def destNum : Option Nat → Nat
  | some r => r
  | none => BROADCAST_NUM

/-- Python `str.isspace` on the characters removed by `str.rstrip()` with
no argument: space, tab, newline, vertical tab, form feed, carriage
return.  (Python also strips further Unicode whitespace; the ASCII set
suffices for the text handled here.) -/
def isPySpace (c : Char) : Bool :=
  c == Char.ofNat 32 || (9 ≤ c.toNat && c.toNat ≤ 13)

/-- Python `one_line.rstrip()` (meshcat.py line 167): removes the maximal
trailing run of whitespace characters. -/
def pyRstrip (s : String) : String :=
  String.mk ((s.data.reverse.dropWhile isPySpace).reverse)

/-- The text-mode body of the main loop (meshcat.py lines 166-167): for
each line delivered by iterating standard input (terminators included),
call `send_message` on its rstripped form.  The result is the list of
interface calls in order. -/
def text_mode_sends (input_lines : List String) (remid : Option Nat) :
    List SendEvent :=
  input_lines.map (fun l => send_message (pyRstrip l) remid)

/-- The fixed binary-mode chunk size (meshcat.py line 124). -/
def max_binary_read_bytes : Nat := 200

/-- One pass of the binary-mode loop with explicit fuel: each iteration
reads `sys.stdin.buffer.read(max_binary_read_bytes)`, modelled as taking
up to that many bytes off the remaining stream; a zero-length read sets
`must_exit`.  The fuel only bounds the iteration count (each iteration
consumes at least one byte), it never cuts a run short when it starts at
the stream length. -/
def binary_mode_go (remid : Option Nat) : Nat → List Nat → List SendEvent
  | _, [] => []
  | 0, _ :: _ => []
  | fuel + 1, b :: bs =>
    send_data ((b :: bs).take max_binary_read_bytes) remid ::
      binary_mode_go remid fuel ((b :: bs).drop max_binary_read_bytes)

/-- The binary-mode main loop (meshcat.py lines 159-164) over the whole
byte stream of standard input. -/
def binary_mode_sends (remid : Option Nat) (stream : List Nat) :
    List SendEvent :=
  binary_mode_go remid stream.length stream

/-- The byte payload carried by an interface call (binary mode only makes
`sendData` calls). -/
def sentPayload : SendEvent → List Nat
  | SendEvent.sendData d _ => d
  | SendEvent.sendText _ _ => []

/-- Value of a decimal digit character. -/
def digitVal? (c : Char) : Option Nat :=
  if 48 ≤ c.toNat && c.toNat ≤ 57 then some (c.toNat - 48) else none

/-- Value of a hexadecimal digit character (either case). -/
def hexDigitVal? (c : Char) : Option Nat :=
  if 48 ≤ c.toNat && c.toNat ≤ 57 then some (c.toNat - 48)
  else if 97 ≤ c.toNat && c.toNat ≤ 102 then some (c.toNat - 87)
  else if 65 ≤ c.toNat && c.toNat ≤ 70 then some (c.toNat - 55)
  else none

/-- Accumulator loop of the decimal parser. -/
def decToNatLoop : List Char → Nat → Option Nat
  | [], acc => some acc
  | c :: cs, acc =>
    match digitVal? c with
    | some d => decToNatLoop cs (acc * 10 + d)
    | none => none

/-- Python `int(s)` restricted to unsigned digit strings (sign, blanks and
underscore separators are not needed by this program and are not
modelled). -/
def decToNat? (s : List Char) : Option Nat :=
  if s = [] then none else decToNatLoop s 0

/-- Accumulator loop of the hexadecimal parser. -/
def hexToNatLoop : List Char → Nat → Option Nat
  | [], acc => some acc
  | c :: cs, acc =>
    match hexDigitVal? c with
    | some d => hexToNatLoop cs (acc * 16 + d)
    | none => none

/-- Python `int(s, 16)` restricted to unsigned hex digit strings. -/
def hexToNat? (s : List Char) : Option Nat :=
  if s = [] then none else hexToNatLoop s 0

/-- Construction of the destination filter from the `--remote` argument
(meshcat.py lines 144-149): the empty string leaves the filter unset; a
string starting with an exclamation mark is parsed as hexadecimal after
removing every exclamation mark; anything else is parsed as decimal.  An
unparsable value raises an uncaught `ValueError`, modelled by the error
case. -/
def parse_remote (s : String) : Except String (Option Nat) :=
  if s = "" then Except.ok none
  else if s.front = '!' then
    match hexToNat? (s.data.filter (fun c => c != '!')) with
    | some n => Except.ok (some n)
    | none => Except.error "ValueError"
  else
    match decToNat? s.data with
    | some n => Except.ok (some n)
    | none => Except.error "ValueError"

/-- When the sender filter rejects the packet, the callback body does
nothing. -/
theorem body_filter_false (conv : String → String) (remote_num : Option Nat)
    (p : Packet) (h : passesFilter remote_num (p.from_num.getD 0) = false) :
    onReceiveBody conv remote_num p = Except.ok [] := by
  unfold onReceiveBody
  rw [h]
  simp

/-- A packet with no `decoded` sub-dictionary produces nothing. -/
theorem body_no_decoded (conv : String → String) (remote_num : Option Nat)
    (p : Packet) (h : p.decoded = none) :
    onReceiveBody conv remote_num p = Except.ok [] := by
  unfold onReceiveBody
  rw [h]
  split <;> rfl

/-- A normally returning body passes through the `try/except` unchanged. -/
theorem onReceive_of_body (conv : String → String) (remote_num : Option Nat)
    (p : Packet) (l : List OutEvent)
    (h : onReceiveBody conv remote_num p = Except.ok l) :
    onReceive conv remote_num p = Except.ok l := by
  unfold onReceive
  rw [h]

/-- C1 (amended): for every configured nonzero destination filter value, a
packet whose sender number (the `from` key, default 0 when absent) differs
from the filter produces no output on standard output or the diagnostic
stream. -/
theorem nonzero_filter_mismatch_silent (conv : String → String) (r : Nat)
    (p : Packet) (hr : r ≠ 0) (hf : p.from_num.getD 0 ≠ r) :
    onReceive conv (some r) p = Except.ok [] := by
  apply onReceive_of_body
  apply body_filter_false
  simp [passesFilter, truthy, hr, hf]

/-- C1 witness: the amended theorem applied to filter 43 and sender 42. -/
theorem nonzero_filter_mismatch_silent_witness :
    (43 ≠ 0) ∧
    ((Packet.mk none (some 42)
        (some ⟨some "NODEINFO_APP", none, none, none⟩)).from_num.getD 0 ≠ 43) ∧
    onReceive (fun s => s) (some 43)
      (Packet.mk none (some 42)
        (some ⟨some "NODEINFO_APP", none, none, none⟩)) = Except.ok [] :=
  ⟨by decide, by decide,
    nonzero_filter_mismatch_silent (fun s => s) 43 _ (by decide) (by decide)⟩

/-- C1 counterexample: with the destination filter configured to the value
0 and a non-matching sender 5, the callback still emits the text message,
so the claimed silence does not hold for filter value 0. -/
theorem filter_zero_processes_all_cex :
    onReceive (fun s => s) (some 0)
      (Packet.mk none (some 5)
        (some ⟨some "TEXT_MESSAGE_APP", none, none, some [104, 105]⟩)) =
      Except.ok [OutEvent.out "hi"] ∧
    onReceive (fun s => s) (some 0)
      (Packet.mk none (some 5)
        (some ⟨some "TEXT_MESSAGE_APP", none, none, some [104, 105]⟩)) ≠
      Except.ok [] :=
  ⟨by decide, by decide⟩

/-- C2 (amended): for every packet that passes the sender filter, whose
`decoded.portnum` is TEXT_MESSAGE_APP and whose payload decodes as UTF-8,
the callback emits exactly the decoded text as the single standard-output
line, for every filter value that lets the sender through. -/
theorem text_message_emits_decoded_line (conv : String → String)
    (remote_num : Option Nat) (p : Packet) (d : DecodedInfo)
    (bs : List Nat) (msg : String)
    (hpass : passesFilter remote_num (p.from_num.getD 0) = true)
    (hd : p.decoded = some d) (hp : d.portnum = some "TEXT_MESSAGE_APP")
    (hb : d.payload = some bs) (hm : decodeUtf8 bs = some msg) :
    onReceive conv remote_num p = Except.ok [OutEvent.out msg] := by
  apply onReceive_of_body
  unfold onReceiveBody
  rw [hpass, hd]
  simp [hp, hb, hm]

/-- C2 witness: the amended theorem applied to a broadcast packet carrying
the UTF-8 bytes of the text hi, with no filter configured. -/
theorem text_message_emits_decoded_line_witness :
    passesFilter none
      ((Packet.mk none (some 42)
        (some ⟨some "TEXT_MESSAGE_APP", none, none, some [104, 105]⟩)).from_num.getD 0) = true ∧
    decodeUtf8 [104, 105] = some "hi" ∧
    onReceive (fun s => s) none
      (Packet.mk none (some 42)
        (some ⟨some "TEXT_MESSAGE_APP", none, none, some [104, 105]⟩)) =
      Except.ok [OutEvent.out "hi"] :=
  ⟨by decide, by decide,
    text_message_emits_decoded_line (fun s => s) none _ _ [104, 105] "hi"
      (by decide) rfl rfl rfl (by decide)⟩

/-- C2 counterexample: the same text packet from sender 42, but with the
destination filter configured to 43: the callback emits nothing, so the
claim does not hold for every destination filter value. -/
theorem text_message_filtered_out_cex :
    onReceive (fun s => s) (some 43)
      (Packet.mk none (some 42)
        (some ⟨some "TEXT_MESSAGE_APP", none, none, some [104, 105]⟩)) =
      Except.ok [] ∧
    onReceive (fun s => s) (some 43)
      (Packet.mk none (some 42)
        (some ⟨some "TEXT_MESSAGE_APP", none, none, some [104, 105]⟩)) ≠
      Except.ok [OutEvent.out "hi"] :=
  ⟨by decide, by decide⟩

/-- C4: `send_data` and `send_message` make exactly one interface call; a
configured remote id is targeted as a unicast destination and an absent
one becomes the broadcast sentinel, with the payload passed through
unchanged in all four cases. -/
theorem send_path_destination_selection (data : List Nat) (msg : String)
    (r : Nat) :
    send_data data (some r) = SendEvent.sendData data r ∧
    send_data data none = SendEvent.sendData data BROADCAST_NUM ∧
    send_message msg (some r) = SendEvent.sendText msg r ∧
    send_message msg none = SendEvent.sendText msg BROADCAST_NUM :=
  ⟨rfl, rfl, rfl, rfl⟩

/-- C10: the value 0 for the remote node id is treated asymmetrically:
`--remote 0` parses to a configured filter of 0, the send path then makes
a unicast call to node 0 (not broadcast), while the receive filter treats
the value 0 as no filter at all and behaves exactly as with no remote
configured. -/
theorem remote_zero_asymmetry (conv : String → String) (p : Packet)
    (data : List Nat) (msg : String) :
    parse_remote "0" = Except.ok (some 0) ∧
    send_data data (some 0) = SendEvent.sendData data 0 ∧
    send_message msg (some 0) = SendEvent.sendText msg 0 ∧
    (0 : Nat) ≠ BROADCAST_NUM ∧
    onReceive conv (some 0) p = onReceive conv none p :=
  ⟨by decide, rfl, rfl, by decide, rfl⟩

/-- C6: for every packet passing the sender filter whose `decoded.portnum`
is POSITION_APP and whose `position` field is present, the reported
latitude and longitude are exactly the raw fixed-point fields divided by
10,000,000 (computed here as exact rationals), and a missing `latitudeI`
or `longitudeI` is reported as the N/A marker (the `none` coordinate of
the output event). -/
theorem position_report_exact_division (conv : String → String)
    (remote_num : Option Nat) (p : Packet) (d : DecodedInfo)
    (pos : PositionInfo)
    (hpass : passesFilter remote_num (p.from_num.getD 0) = true)
    (hd : p.decoded = some d) (hp : d.portnum = some "POSITION_APP")
    (hpos : d.position = some pos) :
    onReceive conv remote_num p =
      Except.ok [OutEvent.errPosition (nodeIdStr p)
        (pos.latitudeI.map (fun v : Int => (v : ℚ) / 10000000))
        (pos.longitudeI.map (fun v : Int => (v : ℚ) / 10000000))] := by
  apply onReceive_of_body
  unfold onReceiveBody
  rw [hpass, hd]
  simp [hp, hpos]

/-- C6 witness: a packet with id 7 and `latitudeI = 123456789` and no
longitude reports exactly latitude 123456789 / 10^7 = 12.3456789 and N/A
for the longitude. -/
theorem position_report_exact_division_witness :
    passesFilter none
      ((Packet.mk (some 7) none
        (some ⟨some "POSITION_APP", none, some ⟨some 123456789, none⟩,
          none⟩)).from_num.getD 0) = true ∧
    ((123456789 : Int) : ℚ) / 10000000 = 12.3456789 ∧
    onReceive (fun s => s) none
      (Packet.mk (some 7) none
        (some ⟨some "POSITION_APP", none, some ⟨some 123456789, none⟩,
          none⟩)) =
      Except.ok [OutEvent.errPosition "7"
        (some (((123456789 : Int) : ℚ) / 10000000)) none] :=
  ⟨by decide, by norm_num,
    position_report_exact_division (fun s => s) none
      (Packet.mk (some 7) none
        (some ⟨some "POSITION_APP", none, some ⟨some 123456789, none⟩,
          none⟩))
      ⟨some "POSITION_APP", none, some ⟨some 123456789, none⟩, none⟩
      ⟨some 123456789, none⟩ (by decide) rfl rfl rfl⟩

/-- C8 (amended): for every packet passing the sender filter whose
`decoded.portnum` is NODEINFO_APP, the callback writes the single
diagnostic line `__nodeinfo: <long>/<short>/<mac>/<hw>`, where missing
long name, short name and hardware model default to N/A, while a missing
MAC address defaults to the raw string `/` which is then passed to the
external display conversion. -/
theorem nodeinfo_report_fields (conv : String → String)
    (remote_num : Option Nat) (p : Packet) (d : DecodedInfo)
    (hpass : passesFilter remote_num (p.from_num.getD 0) = true)
    (hd : p.decoded = some d) (hp : d.portnum = some "NODEINFO_APP") :
    onReceive conv remote_num p =
      Except.ok [OutEvent.err ("__nodeinfo: " ++
        (d.user.getD emptyUser).longName.getD "N/A" ++ "/" ++
        (d.user.getD emptyUser).shortName.getD "N/A" ++ "/" ++
        conv ((d.user.getD emptyUser).macaddr.getD "/") ++ "/" ++
        (d.user.getD emptyUser).hwModel.getD "N/A")] := by
  apply onReceive_of_body
  unfold onReceiveBody
  rw [hpass, hd]
  simp [hp]

/-- C8 witness: a node-info packet with all user fields present is
reported as the one diagnostic line built from those fields (the identity
conversion stands in for the external MAC display conversion). -/
theorem nodeinfo_report_fields_witness :
    passesFilter none
      ((Packet.mk none none
        (some ⟨some "NODEINFO_APP",
          some ⟨some "Base camp", some "BC", some "rawmac", some "TBEAM"⟩,
          none, none⟩)).from_num.getD 0) = true ∧
    onReceive (fun s => s) none
      (Packet.mk none none
        (some ⟨some "NODEINFO_APP",
          some ⟨some "Base camp", some "BC", some "rawmac", some "TBEAM"⟩,
          none, none⟩)) =
      Except.ok [OutEvent.err "__nodeinfo: Base camp/BC/rawmac/TBEAM"] :=
  ⟨by decide,
    nodeinfo_report_fields (fun s => s) none
      (Packet.mk none none
        (some ⟨some "NODEINFO_APP",
          some ⟨some "Base camp", some "BC", some "rawmac", some "TBEAM"⟩,
          none, none⟩))
      ⟨some "NODEINFO_APP",
        some ⟨some "Base camp", some "BC", some "rawmac", some "TBEAM"⟩,
        none, none⟩ (by decide) rfl rfl⟩

/-- C8 counterexample: a node-info packet with no user dictionary at all.
The long name, short name and hardware model default to N/A, but the MAC
slot holds the converted default `/` rather than N/A, so the line differs
from the one the claim predicts. -/
theorem nodeinfo_missing_mac_cex :
    onReceive (fun s => s) none
      (Packet.mk none none (some ⟨some "NODEINFO_APP", none, none, none⟩)) =
      Except.ok [OutEvent.err "__nodeinfo: N/A/N/A///N/A"] ∧
    onReceive (fun s => s) none
      (Packet.mk none none (some ⟨some "NODEINFO_APP", none, none, none⟩)) ≠
      Except.ok [OutEvent.err "__nodeinfo: N/A/N/A/N/A/N/A"] :=
  ⟨by decide, by decide⟩

/-- C9: a packet whose `decoded.portnum` is ROUTING_APP or TELEMETRY_APP,
and likewise a packet with no `decoded` sub-dictionary, produces no output
on standard output or the diagnostic stream, for every filter value. -/
theorem routing_telemetry_undecoded_silent (conv : String → String)
    (remote_num : Option Nat) (p : Packet)
    (h : p.decoded = none ∨ ∃ d, p.decoded = some d ∧
      (d.portnum = some "ROUTING_APP" ∨ d.portnum = some "TELEMETRY_APP")) :
    onReceive conv remote_num p = Except.ok [] := by
  apply onReceive_of_body
  rcases h with hnone | ⟨d, hd, hp | hp⟩
  · exact body_no_decoded conv remote_num p hnone
  · unfold onReceiveBody
    cases hfp : passesFilter remote_num (p.from_num.getD 0)
    · simp
    · rw [hd]
      simp [hp]
  · unfold onReceiveBody
    cases hfp : passesFilter remote_num (p.from_num.getD 0)
    · simp
    · rw [hd]
      simp [hp]

/-- C9 witness: a telemetry packet from sender 42 with no filter
configured produces no output. -/
theorem routing_telemetry_undecoded_silent_witness :
    ((Packet.mk none (some 42)
        (some ⟨some "TELEMETRY_APP", none, none, none⟩)).decoded = none ∨
      ∃ d, (Packet.mk none (some 42)
        (some ⟨some "TELEMETRY_APP", none, none, none⟩)).decoded = some d ∧
        (d.portnum = some "ROUTING_APP" ∨
         d.portnum = some "TELEMETRY_APP")) ∧
    onReceive (fun s => s) none
      (Packet.mk none (some 42)
        (some ⟨some "TELEMETRY_APP", none, none, none⟩)) = Except.ok [] :=
  ⟨Or.inr ⟨_, rfl, Or.inr rfl⟩,
    routing_telemetry_undecoded_silent (fun s => s) none _
      (Or.inr ⟨_, rfl, Or.inr rfl⟩)⟩

/-- The only exceptions the callback body can raise: a `KeyError` for the
missing `payload` key of a text-message packet, or the decode error of an
invalid UTF-8 text payload; both require the sender filter to pass. -/
theorem onReceiveBody_error_cases (conv : String → String)
    (remote_num : Option Nat) (p : Packet) (e : PyErr)
    (h : onReceiveBody conv remote_num p = Except.error e) :
    passesFilter remote_num (p.from_num.getD 0) = true ∧
    ∃ d, p.decoded = some d ∧ d.portnum.getD "N/A" = "TEXT_MESSAGE_APP" ∧
      ((e = PyErr.keyError "payload" ∧ d.payload = none) ∨
       (e = PyErr.unicodeDecodeError ∧
        ∃ bs, d.payload = some bs ∧ decodeUtf8 bs = none)) := by
  by_cases hfp : passesFilter remote_num (p.from_num.getD 0) = true
  case neg =>
    rw [body_filter_false conv remote_num p
      (by simpa using hfp)] at h
    simp at h
  case pos =>
    refine ⟨hfp, ?_⟩
    cases hdec : p.decoded with
    | none =>
      rw [body_no_decoded conv remote_num p hdec] at h
      simp at h
    | some d =>
      refine ⟨d, rfl, ?_⟩
      unfold onReceiveBody at h
      rw [hfp, hdec] at h
      simp only [if_true] at h
      by_cases h1 : d.portnum.getD "N/A" = "NODEINFO_APP"
      · rw [if_pos h1] at h
        simp at h
      rw [if_neg h1] at h
      by_cases h2 : d.portnum.getD "N/A" = "POSITION_APP"
      · rw [if_pos h2] at h
        cases hpos : d.position with
        | none => rw [hpos] at h; simp at h
        | some pos => rw [hpos] at h; simp at h
      rw [if_neg h2] at h
      by_cases h3 : d.portnum.getD "N/A" = "ROUTING_APP"
      · rw [if_pos h3] at h
        simp at h
      rw [if_neg h3] at h
      by_cases h4 : d.portnum.getD "N/A" = "TELEMETRY_APP"
      · rw [if_pos h4] at h
        simp at h
      rw [if_neg h4] at h
      by_cases h5 : d.portnum.getD "N/A" = "TEXT_MESSAGE_APP"
      · rw [if_pos h5] at h
        refine ⟨h5, ?_⟩
        cases hpl : d.payload with
        | none =>
          rw [hpl] at h
          simp at h
          exact Or.inl ⟨h.symm, rfl⟩
        | some bs =>
          rw [hpl] at h
          cases hdu : decodeUtf8 bs with
          | none =>
            simp [hdu] at h
            exact Or.inr ⟨h.symm, bs, rfl, hdu⟩
          | some msg =>
            simp [hdu] at h
      · rw [if_neg h5] at h
        simp at h

/-- C3 (amended): the callback never lets a `KeyError` escape: any
missing-key failure in the body is logged to the diagnostic stream with
the exception text through `Debug` and suppressed.  The one failure that
does propagate to the caller is the decode error of a text-message packet
whose payload is present but not valid UTF-8. -/
theorem onReceive_error_policy (conv : String → String)
    (remote_num : Option Nat) (p : Packet) :
    (∀ k, onReceive conv remote_num p ≠ Except.error (PyErr.keyError k)) ∧
    (∀ k, onReceiveBody conv remote_num p = Except.error (PyErr.keyError k) →
      onReceive conv remote_num p =
        Except.ok (Debug ("Error processing packet: " ++ keyErrorRepr k))) ∧
    (∀ e, onReceive conv remote_num p = Except.error e →
      e = PyErr.unicodeDecodeError ∧
      ∃ d bs, p.decoded = some d ∧
        d.portnum.getD "N/A" = "TEXT_MESSAGE_APP" ∧
        d.payload = some bs ∧ decodeUtf8 bs = none) := by
  refine ⟨?_, ?_, ?_⟩
  · intro k hcontra
    cases hb : onReceiveBody conv remote_num p with
    | ok l =>
      unfold onReceive at hcontra
      rw [hb] at hcontra
      simp at hcontra
    | error e =>
      cases e with
      | keyError k2 =>
        unfold onReceive at hcontra
        rw [hb] at hcontra
        simp at hcontra
      | unicodeDecodeError =>
        unfold onReceive at hcontra
        rw [hb] at hcontra
        simp at hcontra
  · intro k hk
    unfold onReceive
    rw [hk]
  · intro e he
    cases hb : onReceiveBody conv remote_num p with
    | ok l =>
      unfold onReceive at he
      rw [hb] at he
      simp at he
    | error e2 =>
      cases e2 with
      | keyError k =>
        unfold onReceive at he
        rw [hb] at he
        simp at he
      | unicodeDecodeError =>
        unfold onReceive at he
        rw [hb] at he
        simp at he
        obtain ⟨hfp, d, hdec, hport, hcase⟩ :=
          onReceiveBody_error_cases conv remote_num p _ hb
        rcases hcase with ⟨hek, _⟩ | ⟨heu, bs, hbs, hdu⟩
        · simp at hek
        · exact ⟨he.symm, d, bs, hdec, hport, hbs, hdu⟩

/-- C3 witness: the amended theorem applied to a text-message packet with
no `payload` key: the body raises the `KeyError` and the callback returns
normally with the logged diagnostic note. -/
theorem onReceive_error_policy_witness :
    onReceiveBody (fun s => s) none
      (Packet.mk none none
        (some ⟨some "TEXT_MESSAGE_APP", none, none, none⟩)) =
      Except.error (PyErr.keyError "payload") ∧
    onReceive (fun s => s) none
      (Packet.mk none none
        (some ⟨some "TEXT_MESSAGE_APP", none, none, none⟩)) =
      Except.ok (Debug ("Error processing packet: " ++
        keyErrorRepr "payload")) :=
  ⟨by decide,
    (onReceive_error_policy (fun s => s) none
      (Packet.mk none none
        (some ⟨some "TEXT_MESSAGE_APP", none, none, none⟩))).2.1
      "payload" (by decide)⟩

/-- C3 counterexample: a text-message packet whose payload byte 255 is not
valid UTF-8 makes the callback propagate the decode error to its caller
instead of returning normally, so not every malformed-packet failure is
caught. -/
theorem decode_error_propagates_cex :
    onReceive (fun s => s) none
      (Packet.mk none none
        (some ⟨some "TEXT_MESSAGE_APP", none, none, some [255]⟩)) =
      Except.error PyErr.unicodeDecodeError := by
  decide

/-- The rstripped prefix and the stripped whitespace suffix together
restore the original character list. -/
theorem rstrip_split (p : Char → Bool) (l : List Char) :
    l.rdropWhile p ++ l.rtakeWhile p = l := by
  rw [List.rdropWhile, List.rtakeWhile, ← List.reverse_append,
    List.takeWhile_append_dropWhile, List.reverse_reverse]

/-- `pyRstrip` is exactly `List.rdropWhile` of the whitespace predicate on
the underlying characters. -/
theorem pyRstrip_data (s : String) :
    (pyRstrip s).data = s.data.rdropWhile isPySpace := rfl

/-- C5 (amended): text mode sends one message per input line in order,
skipping nothing; each message is the line with its maximal trailing run
of whitespace characters removed (so not only the line terminator but
also trailing spaces and tabs are stripped); an empty line or a bare
terminator is forwarded as the empty string. -/
theorem text_mode_rstrips_each_line (input_lines : List String)
    (remid : Option Nat) :
    text_mode_sends input_lines remid =
      input_lines.map
        (fun l => SendEvent.sendText (pyRstrip l) (destNum remid)) ∧
    (∀ l : String,
      l.data = (pyRstrip l).data ++ l.data.rtakeWhile isPySpace ∧
      (l.data.rtakeWhile isPySpace).all isPySpace = true ∧
      ((pyRstrip l).data = [] ∨
        ∃ c, (pyRstrip l).data.getLast? = some c ∧ isPySpace c = false)) ∧
    pyRstrip "" = "" ∧
    pyRstrip "\n" = "" := by
  refine ⟨?_, ?_, by decide, by decide⟩
  · cases remid <;> simp [text_mode_sends, send_message, destNum]
  · intro l
    refine ⟨?_, ?_, ?_⟩
    · rw [pyRstrip_data]
      exact (rstrip_split isPySpace l.data).symm
    · exact List.all_eq_true.mpr fun c hc => List.mem_rtakeWhile_imp hc
    · rw [pyRstrip_data]
      by_cases hnil : l.data.rdropWhile isPySpace = []
      · exact Or.inl hnil
      · refine Or.inr ⟨(l.data.rdropWhile isPySpace).getLast hnil,
          List.getLast?_eq_getLast _ hnil, ?_⟩
        have hlast := List.rdropWhile_last_not isPySpace l.data hnil
        simpa using hlast

/-- C5 counterexample: the input line with the text hi, one trailing
space and the terminator is forwarded as the text hi alone: the trailing
space is stripped too, not just the line terminator. -/
theorem rstrip_strips_trailing_space_cex :
    text_mode_sends ["hi \n"] none =
      [SendEvent.sendText "hi" BROADCAST_NUM] ∧
    text_mode_sends ["hi \n"] none ≠
      [SendEvent.sendText "hi " BROADCAST_NUM] :=
  ⟨by decide, by decide⟩

/-- The payload of a send made by `send_data` is the byte buffer given to
it. -/
theorem sentPayload_send_data (chunk : List Nat) (remid : Option Nat) :
    sentPayload (send_data chunk remid) = chunk := by
  cases remid <;> rfl

/-- Every interface call of the fueled binary loop sends one nonempty
chunk of at most the fixed read size, and the chunks concatenate back to
the whole input stream, whenever the fuel covers the stream length. -/
theorem binary_mode_go_spec (remid : Option Nat) :
    ∀ (fuel : Nat) (stream : List Nat), stream.length ≤ fuel →
      ((binary_mode_go remid fuel stream).map sentPayload).flatten =
        stream ∧
      ∀ ev ∈ binary_mode_go remid fuel stream, ∃ chunk,
        ev = send_data chunk remid ∧ chunk ≠ [] ∧
        chunk.length ≤ max_binary_read_bytes := by
  intro fuel
  induction fuel with
  | zero =>
    intro stream hlen
    have hnil : stream = [] :=
      List.eq_nil_of_length_eq_zero (Nat.le_zero.mp hlen)
    subst hnil
    refine ⟨rfl, ?_⟩
    intro ev hev
    simp [binary_mode_go] at hev
  | succ fuel ih =>
    intro stream hlen
    cases stream with
    | nil =>
      refine ⟨rfl, ?_⟩
      intro ev hev
      simp [binary_mode_go] at hev
    | cons b bs =>
      have hdroplen : ((b :: bs).drop max_binary_read_bytes).length ≤ fuel := by
        rw [List.length_drop]
        simp only [List.length_cons, max_binary_read_bytes] at hlen ⊢
        omega
      obtain ⟨ihflat, ihmem⟩ := ih _ hdroplen
      have hgo : binary_mode_go remid (fuel + 1) (b :: bs) =
          send_data ((b :: bs).take max_binary_read_bytes) remid ::
            binary_mode_go remid fuel
              ((b :: bs).drop max_binary_read_bytes) := rfl
      constructor
      · rw [hgo]
        simp only [List.map_cons, List.flatten_cons, ihflat,
          sentPayload_send_data]
        exact List.take_append_drop _ _
      · intro ev hev
        rw [hgo] at hev
        rcases List.mem_cons.mp hev with hhead | htail
        · refine ⟨(b :: bs).take max_binary_read_bytes, hhead, ?_, ?_⟩
          · have hpos : 0 < ((b :: bs).take max_binary_read_bytes).length := by
              rw [List.length_take]
              simp [max_binary_read_bytes]
            exact List.length_pos.mp hpos
          · rw [List.length_take]
            exact min_le_left _ _
        · exact ihmem ev htail

/-- C7: the binary-mode chunk size constant is 200 bytes, the loop on an
exhausted stream makes no sends (a zero-length read terminates it), and
every interface call it makes forwards one nonempty chunk of at most 200
bytes unchanged through `send_data`, with the chunks concatenating back
to the exact input stream. -/
theorem binary_mode_chunking (remid : Option Nat) (stream : List Nat) :
    max_binary_read_bytes = 200 ∧
    binary_mode_sends remid [] = [] ∧
    ((binary_mode_sends remid stream).map sentPayload).flatten = stream ∧
    ∀ ev ∈ binary_mode_sends remid stream, ∃ chunk,
      ev = send_data chunk remid ∧ chunk ≠ [] ∧
      chunk.length ≤ max_binary_read_bytes := by
  obtain ⟨hflat, hmem⟩ :=
    binary_mode_go_spec remid stream.length stream (le_refl _)
  exact ⟨rfl, rfl, hflat, hmem⟩

/-- C7 witness: on the three-byte stream 1, 2, 3 the loop makes exactly
one broadcast `sendData` call whose chunk is the whole stream, nonempty
and within the 200-byte bound. -/
theorem binary_mode_chunking_witness :
    (SendEvent.sendData [1, 2, 3] BROADCAST_NUM ∈
      binary_mode_sends none [1, 2, 3]) ∧
    ∃ chunk, SendEvent.sendData [1, 2, 3] BROADCAST_NUM =
      send_data chunk none ∧ chunk ≠ [] ∧
      chunk.length ≤ max_binary_read_bytes :=
  ⟨by decide,
    (binary_mode_chunking none [1, 2, 3]).2.2.2 _ (by decide)⟩

end Meshcat
